import Mathlib

/-! Overview: shallow embedding of the OmniLogistics NestJS/PostgreSQL backend.

Each service method that the claims touch is translated into a pure Lean
function over an explicit database state.  Capabilities that the code
delegates wholesale to PostgreSQL extensions (full-text match/rank,
trigram similarity, vector distance, geodesic distance) are passed in as
function parameters: the application only composes their results, and the
embedding mirrors exactly that composition.  SQL `LIMIT`/`ORDER BY` are
modelled with `List.take`/`List.mergeSort`, `::int` casts with `round`,
and `ROUND(x, 2)` on `numeric` with half-away-from-zero rounding.
Timestamps are naturals (milliseconds since epoch), SQL numerics are `ℚ`.
-/

/-- Case-insensitive substring test for one character list inside another,
used to model SQL `ILIKE '%pat%'` below. `startsWithChars pat l` mirrors a
prefix comparison. -/
def startsWithChars : List Char → List Char → Bool
  | [], _ => true
  | _ :: _, [] => false
  | a :: as, b :: bs => a == b && startsWithChars as bs

/-- Whether `pat` occurs contiguously inside `l`. The empty pattern occurs
in every list, matching SQL `s ILIKE '%%' = true`. -/
def containsChars (pat : List Char) : List Char → Bool
  | [] => startsWithChars pat []
  | l@(_ :: rest) => startsWithChars pat l || containsChars pat rest

/-- Model of `col ILIKE '%' || q || '%'`: case-insensitive containment of
`q` in `s`. -/
def ilikeContains (s q : String) : Bool :=
  containsChars (q.toList.map Char.toLower) (s.toList.map Char.toLower)

/-- PostgreSQL `ROUND(x, 2)` on `numeric`: half away from zero at the
second decimal. -/
def pgRoundHalfAway (q : ℚ) : ℤ :=
  if q < 0 then -⌊-q + 1 / 2⌋ else ⌊q + 1 / 2⌋

/-- Round a rational to two decimal places, half away from zero, as
`ROUND(x::numeric, 2)` does. -/
def pgRound2 (q : ℚ) : ℚ :=
  (pgRoundHalfAway (q * 100) : ℚ) / 100

/-- SQL `AVG` over the non-`NULL` entries of a column: `none` when the
multiset is empty (all values were `NULL`), otherwise the mean. -/
def sqlAvg (l : List ℚ) : Option ℚ :=
  if l.isEmpty then none else some (l.sum / l.length)

/-- A geographic point as built by `ST_SetSRID(ST_MakePoint(lon, lat), 4326)`. -/
structure GeoPoint where
  lon : ℚ
  lat : ℚ
deriving DecidableEq, Repr

/-- External geodesic distance oracle: `ST_Distance` on `GEOGRAPHY`
columns, in metres.  The application never computes distances itself, so
the embedding takes the distance function as a parameter.
`ST_DWithin(a, b, r)` is modelled as `dist a b ≤ r`. -/
abbrev GeoDist := GeoPoint → GeoPoint → ℚ

/-! Section: Inventory (catalog) service — `src/inventory/inventory.service.ts` -/

/-- A row of the `inventory` table (migration `001_init_extensions.sql`):
`id SERIAL, name TEXT NOT NULL, description TEXT, metadata JSONB,
embedding vector(1536), created_at TIMESTAMPTZ`.  `metadata` is kept as
its serialized JSON text. -/
structure InventoryItem where
  id : ℕ
  name : String
  description : Option String
  metadata : String
  embedding : Option (List ℚ)
  created_at : ℕ
deriving DecidableEq, Repr

/-- The `inventory` table plus the `SERIAL` id sequence. -/
structure InventoryDb where
  rows : List InventoryItem
  nextId : ℕ
deriving DecidableEq, Repr

/-- External full-text match oracle:
`to_tsvector('english', name || ' ' || description) @@ plainto_tsquery('english', q)`. -/
abbrev FtsMatch := String → InventoryItem → Bool

/-- External full-text rank oracle: the `ts_rank(...)` score for a row
against a query. -/
abbrev FtsRank := String → InventoryItem → ℚ

/-- External vector-distance oracle: `embedding <=> q::vector` (cosine
distance) between a query embedding and a row embedding. -/
abbrev VecDist := List ℚ → List ℚ → ℚ

/-- Model of `InventoryService.findOne`: `SELECT ... WHERE id = $1` (first matching
row; `id` is the primary key). -/
def InventoryService.findOne (id : ℕ) (db : InventoryDb) : Option InventoryItem :=
  db.rows.find? (fun r => r.id == id)

/-- Model of `InventoryService.search(query, limit)`: rows where the tsvector
matches `query` OR `name ILIKE '%query%'`, each with its `ts_rank` score,
`ORDER BY rank DESC LIMIT limit`. -/
def InventoryService.search (fts : FtsMatch) (rank : FtsRank) (query : String)
    (lim : ℕ) (db : InventoryDb) : List (InventoryItem × ℚ) :=
  (((db.rows.filter (fun r => fts query r || ilikeContains r.name query)).map
      (fun r => (r, rank query r))).mergeSort
    (fun a b => decide (b.2 ≤ a.2))).take lim

/-- Model of `InventoryService.hybridSearch(query, queryEmbedding, limit)`.  With no
embedding it falls back to `search`.  With one, it takes the union of
full-text matches and embedding-bearing rows (`LEFT JOIN` both CTEs,
`WHERE fts.id IS NOT NULL OR vec.id IS NOT NULL`), scores each row as
`COALESCE(bm25, 0) * 0.4 + COALESCE(1 - distance, 0) * 0.6`, and orders
descending by that score, `LIMIT limit`. -/
def InventoryService.hybridSearch (fts : FtsMatch) (rank : FtsRank) (dist : VecDist)
    (query : String) (queryEmbedding : Option (List ℚ)) (lim : ℕ)
    (db : InventoryDb) : List (InventoryItem × ℚ) :=
  match queryEmbedding with
  | none => InventoryService.search fts rank query lim db
  | some v =>
    (((db.rows.filter (fun r => fts query r || r.embedding.isSome)).map
        (fun r => (r,
          (if fts query r then rank query r else 0) * (0.4 : ℚ) +
          (match r.embedding with
           | some e => 1 - dist v e
           | none => 0) * (0.6 : ℚ)))).mergeSort
      (fun a b => decide (b.2 ≤ a.2))).take lim

/-- Model of `Partial<CreateInventoryDto>` as received by `InventoryService.update`:
each field independently present or absent. -/
structure UpdateInventoryDto where
  name : Option String
  description : Option String
  metadata : Option String
deriving DecidableEq, Repr

/-- Whether the update body carries none of the recognised fields, i.e.
`updateData` stays `{}`. -/
def UpdateInventoryDto.isEmpty (d : UpdateInventoryDto) : Bool :=
  d.name.isNone && d.description.isNone && d.metadata.isNone

/-- The row transformation of the `SET` list built by
`InventoryService.update`: only the supplied fields are written. -/
def applyInvUpdate (dto : UpdateInventoryDto) (r : InventoryItem) : InventoryItem :=
  { r with
    name := dto.name.getD r.name
    description := match dto.description with
      | some d => some d
      | none => r.description
    metadata := dto.metadata.getD r.metadata }

/-- Model of `InventoryService.update(id, dto)`: builds `updateData` from the
supplied fields and runs `UPDATE inventory SET ... WHERE id = $ RETURNING ...`,
returning the updated row or `null` when no row matched.  With an empty
`dto`, Kysely's `.set({})` emits an `UPDATE` with an empty `SET` list,
which the database rejects — modelled as the error branch. -/
def InventoryService.update (id : ℕ) (dto : UpdateInventoryDto) (db : InventoryDb) :
    Except String (Option InventoryItem × InventoryDb) :=
  if dto.isEmpty then
    .error "syntax error: UPDATE with empty SET list"
  else
    let rows' := db.rows.map (fun r => if r.id == id then applyInvUpdate dto r else r)
    match InventoryService.findOne id db with
    | none => .ok (none, ⟨rows', db.nextId⟩)
    | some r => .ok (some (applyInvUpdate dto r), ⟨rows', db.nextId⟩)

/-! Section: Drivers (agents) service — `src/drivers/drivers.service.ts` -/

/-- A row of the `drivers` table: `id SERIAL, name TEXT NOT NULL,
location GEOGRAPHY(POINT, 4326), status TEXT DEFAULT 'offline'`. -/
structure Driver where
  id : ℕ
  name : String
  status : String
  location : Option GeoPoint
deriving DecidableEq, Repr

/-- The `drivers` table plus the `SERIAL` id sequence. -/
structure DriversDb where
  rows : List Driver
  nextId : ℕ
deriving DecidableEq, Repr

/-- One result row of `DriversService.findNearby`: driver columns plus
`ST_Distance(location, point)::int AS distance_m`. -/
structure NearbyDriverRow where
  id : ℕ
  name : String
  status : String
  location : Option GeoPoint
  distance_m : ℤ
deriving DecidableEq, Repr

/-- Model of `GET /drivers/distance/:a/:b` response shape. -/
structure DriverDistance where
  driver_a : ℕ
  driver_b : ℕ
  distance_m : ℤ
deriving DecidableEq, Repr

/-- Model of `DriversService.findOne`: `SELECT ... WHERE id = $1` (`id` is the
primary key). -/
def DriversService.findOne (id : ℕ) (db : DriversDb) : Option Driver :=
  db.rows.find? (fun d => d.id == id)

/-- Model of `DriversService.findNearby(lat, lon, radiusMetres, status?)`:
`WHERE location IS NOT NULL AND ST_DWithin(location, point, radius)
[AND status = $] ORDER BY distance_m ASC`, with
`distance_m = ST_Distance(location, point)::int` (rounded to integer
metres). -/
def DriversService.findNearby (dist : GeoDist) (lat lon : ℚ) (radiusMetres : ℚ)
    (status : Option String) (db : DriversDb) : List NearbyDriverRow :=
  let p : GeoPoint := ⟨lon, lat⟩
  (db.rows.filterMap (fun d =>
    match d.location with
    | none => none
    | some q =>
      if dist q p ≤ radiusMetres ∧ (∀ s ∈ status, d.status = s) then
        some ⟨d.id, d.name, d.status, some q, round (dist q p)⟩
      else none)).mergeSort (fun a b => decide (a.distance_m ≤ b.distance_m))

/-- Model of `DriversController.findNearby`: the `radius_m` query parameter
defaults to `'5000'` when unspecified. -/
def DriversController.findNearby (dist : GeoDist) (lat lon : ℚ)
    (radiusM : Option ℚ) (status : Option String) (db : DriversDb) :
    List NearbyDriverRow :=
  DriversService.findNearby dist lat lon (radiusM.getD 5000) status db

/-- Model of `DriversService.distanceBetween(aId, bId)`:
`SELECT ST_Distance(a.location, b.location)::int FROM drivers a, drivers b
WHERE a.id = $ AND b.id = $ AND a.location IS NOT NULL AND b.location IS NOT NULL`;
`NotFoundException` when the join is empty. -/
def DriversService.distanceBetween (dist : GeoDist) (aId bId : ℕ) (db : DriversDb) :
    Except String DriverDistance :=
  match DriversService.findOne aId db, DriversService.findOne bId db with
  | some a, some b =>
    match a.location, b.location with
    | some pa, some pb => .ok ⟨aId, bId, round (dist pa pb)⟩
    | _, _ => .error "Could not compute distance"
  | _, _ => .error "Could not compute distance"

/-- Model of `UpdateDriverDto` (`PartialType(CreateDriverDto)`): name, location and
status, each independently present or absent. -/
structure UpdateDriverDto where
  name : Option String
  status : Option String
  location : Option GeoPoint
deriving DecidableEq, Repr

/-- Whether `setParts` stays empty for this body. -/
def UpdateDriverDto.isEmpty (d : UpdateDriverDto) : Bool :=
  d.name.isNone && d.status.isNone && d.location.isNone

/-- The row transformation of the `SET` list built by
`DriversService.update`. -/
def applyDriverUpdate (dto : UpdateDriverDto) (d : Driver) : Driver :=
  { d with
    name := dto.name.getD d.name
    status := dto.status.getD d.status
    location := match dto.location with
      | some p => some p
      | none => d.location }

/-- Model of `DriversService.update(id, dto)`: 404 guard via `findOne`; with no
recognised field supplied (`setParts.length === 0`) it returns `findOne`
again without issuing an `UPDATE`; otherwise it updates exactly the
supplied fields. -/
def DriversService.update (id : ℕ) (dto : UpdateDriverDto) (db : DriversDb) :
    Except String (Driver × DriversDb) :=
  match DriversService.findOne id db with
  | none => .error "Driver not found"
  | some row =>
    if dto.isEmpty then
      .ok (row, db)
    else
      let rows' := db.rows.map (fun r => if r.id == id then applyDriverUpdate dto r else r)
      .ok (applyDriverUpdate dto row, ⟨rows', db.nextId⟩)

/-! Section: Telemetry service — `src/telemetry/telemetry.service.ts` -/

/-- A row of the `vehicle_telemetry` hypertable.  `time` is milliseconds
since epoch; sensor fields are nullable. -/
structure TelemetryReading where
  time : ℕ
  vehicle_id : String
  speed : Option ℚ
  battery_level : Option ℚ
  temperature : Option ℚ
  location : Option GeoPoint
deriving DecidableEq, Repr

/-- The `vehicle_telemetry` table (append-only). -/
structure TelemetryDb where
  rows : List TelemetryReading
deriving DecidableEq, Repr

/-- TimescaleDB `time_bucket(bucket, time)`: the epoch-aligned start of
the fixed-width bucket containing `time`. -/
def timeBucket (bucket t : ℕ) : ℕ :=
  bucket * (t / bucket)

/-- One result row of `TelemetryService.aggregate`: bucket start,
vehicle, `ROUND(AVG(...)::numeric, 2)` per sensor field (`none` when
every value in the bucket was `NULL`), and `COUNT(*)`. -/
structure TelemetryBucketRow where
  bucket : ℕ
  vehicle_id : String
  avg_speed : Option ℚ
  avg_battery : Option ℚ
  avg_temperature : Option ℚ
  readings : ℕ
deriving DecidableEq, Repr

/-- The readings of `vehicle_id` that `aggregate`'s `WHERE` clause keeps:
`vehicle_id = $ AND time BETWEEN fromT AND toT` — note SQL `BETWEEN` is
inclusive at both ends. -/
def telemetryWindow (v : String) (fromT toT : ℕ) (db : TelemetryDb) :
    List TelemetryReading :=
  db.rows.filter (fun r => r.vehicle_id == v && fromT ≤ r.time && r.time ≤ toT)

/-- The aggregate row the `GROUP BY` produces for bucket key `k` over the
matched readings. -/
def telemetryBucketRow (v : String) (bucket : ℕ) (matched : List TelemetryReading)
    (k : ℕ) : TelemetryBucketRow :=
  let grp := matched.filter (fun r => timeBucket bucket r.time == k)
  { bucket := k
    vehicle_id := v
    avg_speed := (sqlAvg (grp.filterMap (·.speed))).map pgRound2
    avg_battery := (sqlAvg (grp.filterMap (·.battery_level))).map pgRound2
    avg_temperature := (sqlAvg (grp.filterMap (·.temperature))).map pgRound2
    readings := grp.length }

/-- Model of `TelemetryService.aggregate(vehicle_id, bucket, from?, to?)`:
`from` defaults to `Date.now() - 86_400_000` (24 h ago) and `to` to now;
readings in the window are grouped by `time_bucket`, averaged per bucket,
counted, and ordered `bucket DESC`. -/
def TelemetryService.aggregate (v : String) (bucket : ℕ) (fromQ toQ : Option ℕ)
    (now : ℕ) (db : TelemetryDb) : List TelemetryBucketRow :=
  let fromT := fromQ.getD (now - 86400000)
  let toT := toQ.getD now
  let matched := telemetryWindow v fromT toT db
  let keys := (matched.map (fun r => timeBucket bucket r.time)).dedup
  (keys.mergeSort (fun a b => decide (b ≤ a))).map
    (telemetryBucketRow v bucket matched)

/-! Section: Orders service — `src/orders/orders.service.ts` -/

/-- Model of `OrderStatus`: `'pending' | 'queued' | 'processing' | 'completed' | 'failed'`. -/
inductive OrderStatus where
  | pending
  | queued
  | processing
  | completed
  | failed
deriving DecidableEq, Repr

/-- A row of the `orders` table (migration `002_orders_table.sql`),
`metadata` kept as its serialized JSON text. -/
structure Order where
  id : ℕ
  customer_id : String
  driver_id : String
  inventory_id : String
  quantity : ℤ
  status : OrderStatus
  metadata : String
  created_at : ℕ
  updated_at : ℕ
deriving DecidableEq, Repr

/-- The `orders` table plus the `BIGSERIAL` id sequence. -/
structure OrdersDb where
  rows : List Order
  nextId : ℕ
deriving DecidableEq, Repr

/-- Model of `CreateOrderDto`, `metadata` as optional serialized JSON. -/
structure CreateOrderDto where
  customerId : String
  driverId : String
  inventoryId : String
  quantity : ℤ
  metadata : Option String
deriving DecidableEq, Repr

/-- The validation the `CreateOrderDto` class-validator decorators declare
(`@IsNotEmpty` on the three ids, `@IsPositive` on quantity).  The
bootstrap in `main.ts` registers no `ValidationPipe`, so this predicate is
never enforced at runtime — requests reach the database unchecked. -/
def CreateOrderDto.validPerDtoDecorators (d : CreateOrderDto) : Bool :=
  d.customerId ≠ "" && d.driverId ≠ "" && d.inventoryId ≠ "" && decide (0 < d.quantity)

/-- Database-level failures of the order insert. -/
inductive DbError where
  | checkViolation
deriving DecidableEq, Repr

/-- The `INSERT INTO orders ... VALUES (..., 'pending', ...) RETURNING *`
statement in `OrdersService.create`, subject to the table's
`CHECK (quantity > 0)` constraint.  `metadata` defaults to
`JSON.stringify({})`. -/
def ordersInsert (dto : CreateOrderDto) (now : ℕ) (db : OrdersDb) :
    Except DbError (Order × OrdersDb) :=
  if dto.quantity ≤ 0 then .error .checkViolation
  else
    let row : Order :=
      { id := db.nextId
        customer_id := dto.customerId
        driver_id := dto.driverId
        inventory_id := dto.inventoryId
        quantity := dto.quantity
        status := .pending
        metadata := dto.metadata.getD "\x7b\x7d"
        created_at := now
        updated_at := now }
    .ok (row, ⟨db.rows ++ [row], db.nextId + 1⟩)

/-- The JSON payload `publishToQueue` serializes into the queue message. -/
structure OrderPayload where
  orderId : ℕ
  customerId : String
  driverId : String
  inventoryId : String
  quantity : ℤ
  metadata : String
  publishedAt : ℕ
deriving DecidableEq, Repr

/-- Behaviour of the shared RabbitMQ channel on `sendToQueue`: either it
returns an acknowledgement boolean for the message, or it throws. -/
inductive BrokerChannel where
  | sends (ack : OrderPayload → Bool)
  | throws

/-- The injected channel is `null` when the broker was unreachable at
startup (`RabbitMQProvider` catches the connection failure). -/
abbrev Broker := Option BrokerChannel

/-- The message body built in `OrdersService.publishToQueue`. -/
def orderPayload (now : ℕ) (order : Order) : OrderPayload :=
  { orderId := order.id
    customerId := order.customer_id
    driverId := order.driver_id
    inventoryId := order.inventory_id
    quantity := order.quantity
    metadata := order.metadata
    publishedAt := now }

/-- Model of `OrdersService.publishToQueue(order)`: `false` when the channel is
`null`; otherwise the result of `channel.sendToQueue`; any exception is
caught, logged, and converted to `false`.  It never throws to its caller. -/
def OrdersService.publishToQueue (ch : Broker) (now : ℕ) (order : Order) : Bool :=
  match ch with
  | none => false
  | some (.sends ack) => ack (orderPayload now order)
  | some .throws => false

/-- Model of `OrdersService.create(dto)`: insert the row with status `'pending'`;
best-effort publish; on publish success run
`UPDATE orders SET status = 'queued', updated_at = NOW() WHERE id = $`
and return the updated row, otherwise return the inserted row as is. -/
def OrdersService.create (dto : CreateOrderDto) (ch : Broker) (now : ℕ)
    (db : OrdersDb) : Except DbError (Order × OrdersDb) :=
  match ordersInsert dto now db with
  | .error e => .error e
  | .ok (order, db1) =>
    if OrdersService.publishToQueue ch now order then
      let updated := { order with status := .queued, updated_at := now }
      .ok (updated, ⟨db1.rows.map (fun r => if r.id == order.id then updated else r), db1.nextId⟩)
    else
      .ok (order, db1)

/-- Model of `OrdersService.findOne`: `SELECT * FROM orders WHERE id = $` (first
matching row; `id` is the primary key). -/
def OrdersService.findOne (id : ℕ) (db : OrdersDb) : Option Order :=
  db.rows.find? (fun r => r.id == id)

/-- Model of `UpdateOrderDto` (`PartialType(CreateOrderDto)`). -/
structure UpdateOrderDto where
  customerId : Option String
  driverId : Option String
  inventoryId : Option String
  quantity : Option ℤ
  metadata : Option String
deriving DecidableEq, Repr

/-- Whether `fields.length === 0` for this body. -/
def UpdateOrderDto.isEmpty (d : UpdateOrderDto) : Bool :=
  d.customerId.isNone && d.driverId.isNone && d.inventoryId.isNone &&
    d.quantity.isNone && d.metadata.isNone

/-- Columns the dynamic `SET` list of `OrdersService.update` can name, in
the order the source checks the dto's fields. -/
inductive OrderColumn where
  | customer_id
  | driver_id
  | inventory_id
  | quantity
  | metadata
deriving DecidableEq, Repr

/-- The `fields` array `OrdersService.update` collects: the recognised
columns present in the body, in source order. -/
def UpdateOrderDto.presentFields (d : UpdateOrderDto) : List OrderColumn :=
  (if d.customerId.isSome then [OrderColumn.customer_id] else []) ++
  (if d.driverId.isSome then [OrderColumn.driver_id] else []) ++
  (if d.inventoryId.isSome then [OrderColumn.inventory_id] else []) ++
  (if d.quantity.isSome then [OrderColumn.quantity] else []) ++
  (if d.metadata.isSome then [OrderColumn.metadata] else [])

/-- Model of `OrdersService.update(id, dto)`: 404 guard via `findOne`; with no
recognised field supplied it returns `findOne` again without issuing an
`UPDATE` (so `updated_at` is untouched).  Otherwise the source builds
`setClauses = "col_1 = $1, ..., col_n = $n"` and injects it via
`sql.raw`, so the placeholders are raw text — but the collected `values`
array is never bound; the only Kysely-bound parameter is `${id}`, which
renders as `$1`.  The statement the database receives is therefore
`UPDATE orders SET col_1 = $1, ..., col_n = $n, updated_at = NOW()
WHERE id = $1` with the single parameter `id`:
  * two or more present fields — the bind fails (1 parameter supplied,
    `n` required) and the call rejects;
  * exactly one present field `quantity` (INTEGER) — `$1` is typed by
    the assignment and compares with the BIGINT `id`, so the statement
    executes and writes the **id** into `quantity` (the supplied value
    is discarded), refreshing `updated_at` (statement and trigger);
  * exactly one present TEXT/JSONB field — parameter-type deduction
    fails (`bigint = text` / `bigint = jsonb` has no operator) and the
    call rejects. -/
def OrdersService.update (id : ℕ) (dto : UpdateOrderDto) (now : ℕ) (db : OrdersDb) :
    Except String (Order × OrdersDb) :=
  match OrdersService.findOne id db with
  | none => .error "Order not found"
  | some row =>
    if dto.isEmpty then
      .ok (row, db)
    else
      match dto.presentFields with
      | [OrderColumn.quantity] =>
        let rows' := db.rows.map (fun r => if r.id == id then
            { r with quantity := (id : ℤ), updated_at := now } else r)
        .ok ({ row with quantity := (id : ℤ), updated_at := now }, ⟨rows', db.nextId⟩)
      | [_] => .error "operator does not exist: bigint = text"
      | _ => .error "bind message supplies 1 parameters, but the statement requires more"

/-! Section: General lemmas about the embedding's building blocks -/

/-- The empty pattern is contained in every character list (SQL
`s ILIKE '%%'` is true for every `s`). -/
theorem containsChars_nil (l : List Char) : containsChars [] l = true := by
  cases l with
  | nil => rfl
  | cons c cs => rfl

/-- Matching `ilike '%%'` succeeds for every string. -/
theorem ilikeContains_empty (s : String) : ilikeContains s "" = true := by
  simp [ilikeContains, containsChars_nil]

/-- Sorting with `mergeSort` under a transitive, total boolean relation
yields a pairwise-sorted list. -/
theorem mergeSort_pairwise {α : Type} (f : α → α → Bool)
    (htrans : ∀ a b c, f a b = true → f b c = true → f a c = true)
    (htotal : ∀ a b, (f a b || f b a) = true) (l : List α) :
    (l.mergeSort f).Pairwise (fun a b => f a b = true) :=
  List.sorted_mergeSort htrans htotal l

/-- Rounding a rational that is at most an integer `z` to the nearest
integer stays at most `z`. -/
theorem round_le_of_le_intCast {d : ℚ} {z : ℤ} (h : d ≤ (z : ℚ)) :
    round d ≤ z := by
  rw [round_eq]
  have h1 : d + 1 / 2 ≤ (z : ℚ) + 1 / 2 := by linarith
  have h2 : ⌊d + 1 / 2⌋ ≤ ⌊(z : ℚ) + 1 / 2⌋ := Int.floor_le_floor h1
  have h3 : ⌊(z : ℚ) + 1 / 2⌋ = z := by
    rw [add_comm, Int.floor_add_int]
    norm_num
  omega

/-! Section: Claim C4 -/

/-- C4: for every query string and limit, hybrid search invoked with no
embedding vector (`null`) returns exactly the same result sequence, in the
same order, as keyword search with the same query and limit. -/
theorem hybridSearch_without_embedding_equals_search (fts : FtsMatch)
    (rank : FtsRank) (dist : VecDist) (query : String) (lim : ℕ)
    (db : InventoryDb) :
    InventoryService.hybridSearch fts rank dist query none lim db =
      InventoryService.search fts rank query lim db := rfl

/-! Section: Claim C2 -/

/-- A concrete `POST /orders` body with quantity 0. -/
def quantityZeroDto : CreateOrderDto :=
  { customerId := "customer-1"
    driverId := "driver-1"
    inventoryId := "item-1"
    quantity := 0
    metadata := none }

/-- C2, evaluated at the failing input: the bootstrap registers no
`ValidationPipe`, so the `@IsPositive` decorator on quantity never runs
and the request reaches the database, where the `CHECK (quantity > 0)`
constraint rejects the insert as a database error (an unhandled 500), not
as the claimed client-side ValidationError (400); the body does violate
the validation the DTO decorators declare.  No row is persisted (the
insert is the only statement and it fails). -/
theorem orders_create_quantity_zero_hits_db_check :
    OrdersService.create quantityZeroDto none 1000 ⟨[], 1⟩ =
      .error DbError.checkViolation ∧
    quantityZeroDto.validPerDtoDecorators = false := by
  constructor
  · rfl
  · rfl

/-! Section: Claim C1 -/

/-- C1: for every valid order-creation input, `create` first inserts the
order row with status `'pending'`; if the broker publish succeeds it
updates the status to `'queued'` and returns the updated row; if the
publish fails or the channel is unavailable it returns the row exactly as
inserted.  Both branches return `.ok` — no error reaches the caller. -/
theorem orders_create_best_effort_publish (dto : CreateOrderDto) (ch : Broker)
    (now : ℕ) (db : OrdersDb) (hv : dto.validPerDtoDecorators = true) :
    ∃ ins db1,
      ordersInsert dto now db = .ok (ins, db1) ∧
      ins.status = .pending ∧
      db1.rows = db.rows ++ [ins] ∧
      OrdersService.create dto ch now db = .ok
        (if OrdersService.publishToQueue ch now ins then
          ({ ins with status := .queued, updated_at := now },
            ⟨db1.rows.map (fun r => if r.id == ins.id then
                { ins with status := .queued, updated_at := now } else r),
              db1.nextId⟩)
        else (ins, db1)) := by
  have hq : ¬ dto.quantity ≤ 0 := by
    simp [CreateOrderDto.validPerDtoDecorators] at hv
    omega
  set ins : Order :=
    { id := db.nextId
      customer_id := dto.customerId
      driver_id := dto.driverId
      inventory_id := dto.inventoryId
      quantity := dto.quantity
      status := .pending
      metadata := dto.metadata.getD "\x7b\x7d"
      created_at := now
      updated_at := now } with hins
  refine ⟨ins, ⟨db.rows ++ [ins], db.nextId + 1⟩, ?_, rfl, rfl, ?_⟩
  · simp [ordersInsert, hq, hins]
  · unfold OrdersService.create
    simp only [ordersInsert, if_neg hq]
    cases hp : OrdersService.publishToQueue ch now ins <;> simp [hp]

/-- Witness for C1 at a concrete valid input (broker channel `null`). -/
theorem orders_create_best_effort_publish_witness :
    (CreateOrderDto.validPerDtoDecorators ⟨"c-1", "d-1", "i-1", 2, none⟩ = true) ∧
    (∃ ins db1,
      ordersInsert ⟨"c-1", "d-1", "i-1", 2, none⟩ 5 ⟨[], 1⟩ = .ok (ins, db1) ∧
      ins.status = .pending ∧
      db1.rows = ([] : List Order) ++ [ins] ∧
      OrdersService.create ⟨"c-1", "d-1", "i-1", 2, none⟩ none 5 ⟨[], 1⟩ = .ok
        (if OrdersService.publishToQueue none 5 ins then
          ({ ins with status := .queued, updated_at := 5 },
            ⟨db1.rows.map (fun r => if r.id == ins.id then
                { ins with status := .queued, updated_at := 5 } else r),
              db1.nextId⟩)
        else (ins, db1))) :=
  ⟨by decide, orders_create_best_effort_publish ⟨"c-1", "d-1", "i-1", 2, none⟩
    none 5 ⟨[], 1⟩ (by decide)⟩

/-! Section: Claim C10 -/

/-- C10: for every existing driver and every existing order, a partial
update whose body contains no recognised field is an identity: the
service returns the stored row and the table state is untouched (no
`UPDATE` is issued, so for orders `updated_at` is not refreshed — the
returned row is exactly the stored one and the state is unchanged). -/
theorem empty_update_is_identity (ddb : DriversDb) (did : ℕ) (d : Driver)
    (hd : DriversService.findOne did ddb = some d)
    (odb : OrdersDb) (oid : ℕ) (o : Order)
    (ho : OrdersService.findOne oid odb = some o) (now : ℕ) :
    DriversService.update did ⟨none, none, none⟩ ddb = .ok (d, ddb) ∧
    OrdersService.update oid ⟨none, none, none, none, none⟩ now odb = .ok (o, odb) := by
  constructor
  · simp [DriversService.update, hd, UpdateDriverDto.isEmpty]
  · simp [OrdersService.update, ho, UpdateOrderDto.isEmpty]

/-- Witness for C10 at a concrete driver and order. -/
theorem empty_update_is_identity_witness :
    (DriversService.findOne 1 ⟨[⟨1, "Alice", "online", none⟩], 2⟩ =
      some ⟨1, "Alice", "online", none⟩) ∧
    (OrdersService.findOne 7 ⟨[⟨7, "c-1", "d-1", "i-1", 2, .pending, "m", 3, 4⟩], 8⟩ =
      some ⟨7, "c-1", "d-1", "i-1", 2, .pending, "m", 3, 4⟩) ∧
    (DriversService.update 1 ⟨none, none, none⟩ ⟨[⟨1, "Alice", "online", none⟩], 2⟩ =
        .ok (⟨1, "Alice", "online", none⟩, ⟨[⟨1, "Alice", "online", none⟩], 2⟩) ∧
      OrdersService.update 7 ⟨none, none, none, none, none⟩ 99
          ⟨[⟨7, "c-1", "d-1", "i-1", 2, .pending, "m", 3, 4⟩], 8⟩ =
        .ok (⟨7, "c-1", "d-1", "i-1", 2, .pending, "m", 3, 4⟩,
          ⟨[⟨7, "c-1", "d-1", "i-1", 2, .pending, "m", 3, 4⟩], 8⟩)) :=
  ⟨by decide, by decide,
    empty_update_is_identity ⟨[⟨1, "Alice", "online", none⟩], 2⟩ 1 _ (by decide)
      ⟨[⟨7, "c-1", "d-1", "i-1", 2, .pending, "m", 3, 4⟩], 8⟩ 7 _ (by decide) 99⟩

/-! Section: Claim C3 -/

/-- Concrete order row for the C3 failing input (stored quantity 2). -/
def ordRowW : Order := ⟨7, "c-1", "d-1", "i-1", 2, .pending, "m", 3, 4⟩

/-- Concrete orders table for the C3 failing input. -/
def ordDbW : OrdersDb := ⟨[ordRowW], 8⟩

/-- C3, evaluated at the failing input.  The inventory update implements
the claim: renaming item 1 writes exactly the supplied `name` and a
subsequent lookup reflects it with every other column untouched.  The
order update does not: its collected `values` array is never bound, so
`PATCH /orders/7 {quantity: 5}` executes
`UPDATE orders SET quantity = $1, updated_at = NOW() WHERE id = $1`
with the id as the only parameter — `get(7)` then shows quantity 7 (the
id), not the supplied 5; a single supplied TEXT/JSONB field fails
parameter-type deduction, and two or more supplied fields fail the bind
outright. -/
theorem orders_update_discards_supplied_values :
    (InventoryService.update 1 ⟨some "Gadget", none, none⟩
        ⟨[⟨1, "Widget", none, "m0", none, 11⟩], 2⟩ =
      .ok (some ⟨1, "Gadget", none, "m0", none, 11⟩,
        ⟨[⟨1, "Gadget", none, "m0", none, 11⟩], 2⟩)) ∧
    (OrdersService.update 7 ⟨none, none, none, some 5, none⟩ 99 ordDbW =
      .ok (⟨7, "c-1", "d-1", "i-1", 7, .pending, "m", 3, 99⟩,
        ⟨[⟨7, "c-1", "d-1", "i-1", 7, .pending, "m", 3, 99⟩], 8⟩)) ∧
    (OrdersService.findOne 7 ⟨[⟨7, "c-1", "d-1", "i-1", 7, .pending, "m", 3, 99⟩], 8⟩ =
      some ⟨7, "c-1", "d-1", "i-1", 7, .pending, "m", 3, 99⟩) ∧
    ¬ ((7 : ℤ) = 5) ∧
    (OrdersService.update 7 ⟨some "c-2", none, none, none, none⟩ 99 ordDbW =
      .error "operator does not exist: bigint = text") ∧
    (OrdersService.update 7 ⟨some "c-2", none, none, some 5, none⟩ 99 ordDbW =
      .error "bind message supplies 1 parameters, but the statement requires more") :=
  ⟨rfl, rfl, rfl, by decide, rfl, rfl⟩

/-! Section: Claim C9 -/

/-- C9: for every pair of existing drivers that both have a location,
`distanceBetween(a, b)` and `distanceBetween(b, a)` report the same
distance value.  The geodesic distance itself is computed by PostGIS
`ST_Distance`, which is symmetric in its arguments; that external fact is
the `hsym` hypothesis. -/
theorem distanceBetween_symmetric (dist : GeoDist)
    (hsym : ∀ p q, dist p q = dist q p) (aId bId : ℕ) (db : DriversDb)
    (a b : Driver) (ha : DriversService.findOne aId db = some a)
    (hb : DriversService.findOne bId db = some b)
    (pa pb : GeoPoint) (hpa : a.location = some pa) (hpb : b.location = some pb) :
    ∃ dm, DriversService.distanceBetween dist aId bId db = .ok ⟨aId, bId, dm⟩ ∧
      DriversService.distanceBetween dist bId aId db = .ok ⟨bId, aId, dm⟩ := by
  refine ⟨round (dist pa pb), ?_, ?_⟩
  · simp [DriversService.distanceBetween, ha, hb, hpa, hpb]
  · simp [DriversService.distanceBetween, ha, hb, hpa, hpb]
    rw [hsym pb pa]

/-- Concrete drivers table for the C9 witness. -/
def driversDbW : DriversDb :=
  ⟨[⟨1, "Alice", "online", some ⟨0, 0⟩⟩, ⟨2, "Bob", "busy", some ⟨3, 4⟩⟩], 3⟩

/-- Concrete symmetric distance oracle for the C9 witness. -/
def sqDistW : GeoDist :=
  fun p q => (p.lon - q.lon) ^ 2 + (p.lat - q.lat) ^ 2

/-- Witness for C9 at two concrete drivers with locations. -/
theorem distanceBetween_symmetric_witness :
    (∀ p q, sqDistW p q = sqDistW q p) ∧
    (DriversService.findOne 1 driversDbW = some ⟨1, "Alice", "online", some ⟨0, 0⟩⟩) ∧
    (DriversService.findOne 2 driversDbW = some ⟨2, "Bob", "busy", some ⟨3, 4⟩⟩) ∧
    (∃ dm, DriversService.distanceBetween sqDistW 1 2 driversDbW = .ok ⟨1, 2, dm⟩ ∧
      DriversService.distanceBetween sqDistW 2 1 driversDbW = .ok ⟨2, 1, dm⟩) :=
  ⟨fun p q => by simp [sqDistW]; ring,
    by simp [DriversService.findOne, driversDbW],
    by simp [DriversService.findOne, driversDbW],
    distanceBetween_symmetric sqDistW (fun p q => by simp [sqDistW]; ring)
      1 2 driversDbW ⟨1, "Alice", "online", some ⟨0, 0⟩⟩ ⟨2, "Bob", "busy", some ⟨3, 4⟩⟩
      (by simp [DriversService.findOne, driversDbW])
      (by simp [DriversService.findOne, driversDbW])
      ⟨0, 0⟩ ⟨3, 4⟩ rfl rfl⟩

/-! Section: Claim C8 -/

/-- Concrete inventory table for the C8 counterexample. -/
def invDbC8 : InventoryDb := ⟨[⟨1, "Widget", none, "m", none, 0⟩], 2⟩

/-- C8 counterexample: keyword search with an empty query string does not
fail — `search` has no validation branch at all (its result type carries
no error case), and the `name ILIKE '%%'` disjunct matches every row, so
the stored item is returned.  Here `plainto_tsquery('')` matches nothing
(`fts` is constantly false) and the item is still returned via the
`ILIKE` branch. -/
theorem search_empty_query_returns_rows :
    (InventoryService.search (fun _ _ => false) (fun _ _ => 0) "" 10 invDbC8).map
      (·.1.id) = [1] := by
  simp [InventoryService.search, invDbC8, ilikeContains_empty]

/-- C8 amended: keyword search with an empty query does not raise a
ValidationError; every stored row satisfies the empty-substring `ILIKE`
branch, so it returns the first `limit` rows by descending rank — in
particular all rows when `limit` covers the table. -/
theorem search_empty_query_matches_all (fts : FtsMatch) (rank : FtsRank)
    (lim : ℕ) (db : InventoryDb) :
    (InventoryService.search fts rank "" lim db).length = min lim db.rows.length ∧
    (db.rows.length ≤ lim → ∀ r ∈ db.rows,
      (r, rank "" r) ∈ InventoryService.search fts rank "" lim db) := by
  have hfil : db.rows.filter (fun r => fts "" r || ilikeContains r.name "") = db.rows := by
    apply List.filter_eq_self.mpr
    intro a _
    simp [ilikeContains_empty]
  have hlen : ((db.rows.map (fun r => (r, rank "" r))).mergeSort
      (fun a b => decide (b.2 ≤ a.2))).length = db.rows.length := by
    rw [(List.mergeSort_perm _ _).length_eq, List.length_map]
  constructor
  · rw [InventoryService.search, hfil, List.length_take, hlen]
  · intro hle r hr
    rw [InventoryService.search, hfil]
    rw [List.take_of_length_le (by rw [hlen]; exact hle)]
    exact ((List.mergeSort_perm _ _).mem_iff).mpr
      (List.mem_map_of_mem (fun r => (r, rank "" r)) hr)

/-- Witness for C8's amended theorem at a concrete table and limit. -/
theorem search_empty_query_matches_all_witness :
    (InventoryService.search (fun _ _ => false) (fun _ _ => 0) "" 10 invDbC8).length =
      min 10 invDbC8.rows.length :=
  (search_empty_query_matches_all (fun _ _ => false) (fun _ _ => 0) 10 invDbC8).1

/-! Section: Claim C5 -/

/-- C5: with a supplied embedding, hybrid search scores each returned
item over the union of keyword matches and embedding-bearing items as
keyword-relevance × 0.4 + (1 − vector-distance) × 0.6, an item missing
one signal contributing 0 for that signal rather than being excluded;
results are ordered descending by the combined score, and (up to the
`LIMIT`) every item of the union appears. -/
theorem hybridSearch_weighted_union_scoring (fts : FtsMatch) (rank : FtsRank)
    (dist : VecDist) (query : String) (v : List ℚ) (lim : ℕ) (db : InventoryDb) :
    (∀ pr ∈ InventoryService.hybridSearch fts rank dist query (some v) lim db,
      (fts query pr.1 = true ∨ pr.1.embedding.isSome = true) ∧
      pr.2 = (if fts query pr.1 then rank query pr.1 else 0) * (0.4 : ℚ) +
        (match pr.1.embedding with
         | some e => 1 - dist v e
         | none => 0) * (0.6 : ℚ)) ∧
    (InventoryService.hybridSearch fts rank dist query (some v) lim db).Sorted
      (fun a b => b.2 ≤ a.2) ∧
    ((db.rows.filter (fun r => fts query r || r.embedding.isSome)).length ≤ lim →
      ∀ r ∈ db.rows, (fts query r = true ∨ r.embedding.isSome = true) →
        ∃ s, (r, s) ∈ InventoryService.hybridSearch fts rank dist query (some v) lim db) := by
  refine ⟨?_, ?_, ?_⟩
  · intro pr hpr
    have hpr' := List.mem_of_mem_take hpr
    have hpr'' := ((List.mergeSort_perm _ _).mem_iff).mp hpr'
    obtain ⟨r, hrf, hpr3⟩ := List.mem_map.mp hpr''
    have hcond := List.of_mem_filter hrf
    subst hpr3
    simp only [Bool.or_eq_true] at hcond
    exact ⟨hcond, rfl⟩
  · have hpw := mergeSort_pairwise (fun a b : InventoryItem × ℚ => decide (b.2 ≤ a.2))
      (fun a b c h1 h2 => by
        simp only [decide_eq_true_eq] at h1 h2 ⊢
        exact le_trans h2 h1)
      (fun a b => by
        simp only [Bool.or_eq_true, decide_eq_true_eq]
        exact le_total b.2 a.2)
      ((db.rows.filter (fun r => fts query r || r.embedding.isSome)).map
        (fun r => (r,
          (if fts query r then rank query r else 0) * (0.4 : ℚ) +
          (match r.embedding with
           | some e => 1 - dist v e
           | none => 0) * (0.6 : ℚ))))
    have := hpw.sublist (List.take_sublist lim _)
    exact this.imp (fun h => by simpa using h)
  · intro hlen r hr hu
    have hrf : r ∈ db.rows.filter (fun r => fts query r || r.embedding.isSome) :=
      List.mem_filter.mpr ⟨hr, by simpa using hu⟩
    refine ⟨(if fts query r then rank query r else 0) * (0.4 : ℚ) +
      (match r.embedding with
       | some e => 1 - dist v e
       | none => 0) * (0.6 : ℚ), ?_⟩
    show (r, _) ∈ (((db.rows.filter (fun r => fts query r || r.embedding.isSome)).map
        (fun r => (r,
          (if fts query r then rank query r else 0) * (0.4 : ℚ) +
          (match r.embedding with
           | some e => 1 - dist v e
           | none => 0) * (0.6 : ℚ)))).mergeSort
      (fun a b => decide (b.2 ≤ a.2))).take lim
    rw [List.take_of_length_le
      (by rw [(List.mergeSort_perm _ _).length_eq, List.length_map]; exact hlen)]
    exact ((List.mergeSort_perm _ _).mem_iff).mpr (List.mem_map_of_mem _ hrf)

/-- Concrete inventory table with an embedding-bearing row for the C5
witness. -/
def invDbC5 : InventoryDb := ⟨[⟨1, "A", none, "m", some [1], 0⟩], 2⟩

/-- Witness for C5: the ordering part of the theorem at a concrete
instance. -/
theorem hybridSearch_weighted_union_scoring_witness :
    (InventoryService.hybridSearch (fun _ _ => false) (fun _ _ => 0) (fun _ _ => 0)
      "q" (some [1]) 10 invDbC5).Sorted (fun a b => b.2 ≤ a.2) :=
  (hybridSearch_weighted_union_scoring (fun _ _ => false) (fun _ _ => 0)
    (fun _ _ => 0) "q" [1] 10 invDbC5).2.1

/-! Section: Claim C6 -/

/-- Concrete drivers table for the C6 counterexample. -/
def nearbyDbC6 : DriversDb := ⟨[⟨1, "Alice", "online", some ⟨0, 0⟩⟩], 2⟩

/-- Concrete geodesic-distance oracle for the C6 counterexample: the
driver sits 99.7 m from the query point. -/
def fracDistC6 : GeoDist := fun _ _ => 997 / 10

/-- C6 counterexample: with requested radius 99.7 m and a driver at
geodesic distance 99.7 m, the driver passes `ST_DWithin` (99.7 ≤ 99.7),
but the returned `distance_m` is the `::int`-rounded value 100, which
exceeds the requested radius — so "every returned distance ≤ the
requested radius" fails for fractional radii. -/
theorem findNearby_distance_can_exceed_fractional_radius :
    ((DriversService.findNearby fracDistC6 0 0 (997 / 10) none nearbyDbC6).map
      (·.distance_m) = [100]) ∧
    ¬ ((100 : ℚ) ≤ 997 / 10) := by
  constructor
  · have h1 : round ((997 : ℚ) / 10) = 100 := by
      norm_num [round_eq, Int.floor_eq_iff]
    simp [DriversService.findNearby, nearbyDbC6, fracDistC6, h1]
  · norm_num

/-- C6 amended: every returned driver has a non-null location whose true
geodesic distance to the query point is ≤ the requested radius (the
reported `distance_m` is that distance rounded to integer metres, hence
≤ the radius whenever the radius is an integer, as it is by default —
but it may exceed a fractional radius by less than ½); results are
sorted ascending by `distance_m`; and the radius defaults to 5000 m when
unspecified. -/
theorem findNearby_nonnull_within_sorted_default (dist : GeoDist)
    (lat lon radius : ℚ) (st : Option String) (db : DriversDb) :
    (∀ row ∈ DriversService.findNearby dist lat lon radius st db,
      row.location.isSome = true ∧
      (∃ p, row.location = some p ∧ dist p ⟨lon, lat⟩ ≤ radius ∧
        row.distance_m = round (dist p ⟨lon, lat⟩)) ∧
      (∀ z : ℤ, radius = (z : ℚ) → row.distance_m ≤ z)) ∧
    (DriversService.findNearby dist lat lon radius st db).Sorted
      (fun a b => a.distance_m ≤ b.distance_m) ∧
    DriversController.findNearby dist lat lon none st db =
      DriversService.findNearby dist lat lon 5000 st db := by
  refine ⟨?_, ?_, rfl⟩
  · intro row hrow
    have hrow' := ((List.mergeSort_perm _ _).mem_iff).mp hrow
    obtain ⟨d, hd, hf⟩ := List.mem_filterMap.mp hrow'
    cases hloc : d.location with
    | none => rw [hloc] at hf; exact absurd hf (by simp)
    | some q =>
      rw [hloc] at hf
      replace hf : (if dist q ⟨lon, lat⟩ ≤ radius ∧ (∀ s ∈ st, d.status = s) then
          some (⟨d.id, d.name, d.status, some q,
            round (dist q ⟨lon, lat⟩)⟩ : NearbyDriverRow)
        else none) = some row := hf
      by_cases hcond : dist q ⟨lon, lat⟩ ≤ radius ∧ (∀ s ∈ st, d.status = s)
      · rw [if_pos hcond] at hf
        obtain rfl := (Option.some.injEq _ _).mp hf
        refine ⟨rfl, ⟨q, rfl, hcond.1, rfl⟩, ?_⟩
        intro z hz
        exact round_le_of_le_intCast (hz ▸ hcond.1)
      · rw [if_neg hcond] at hf
        exact absurd hf (by simp)
  · have hpw := mergeSort_pairwise
      (fun a b : NearbyDriverRow => decide (a.distance_m ≤ b.distance_m))
      (fun a b c h1 h2 => by
        simp only [decide_eq_true_eq] at h1 h2 ⊢
        exact le_trans h1 h2)
      (fun a b => by
        simp only [Bool.or_eq_true, decide_eq_true_eq]
        exact le_total a.distance_m b.distance_m)
      (db.rows.filterMap (fun d =>
        match d.location with
        | none => none
        | some q =>
          if dist q ⟨lon, lat⟩ ≤ radius ∧ (∀ s ∈ st, d.status = s) then
            some ⟨d.id, d.name, d.status, some q, round (dist q ⟨lon, lat⟩)⟩
          else none))
    exact hpw.imp (fun h => by simpa using h)

/-- Witness for C6's amended theorem: the default-radius equation at a
concrete table. -/
theorem findNearby_nonnull_within_sorted_default_witness :
    DriversController.findNearby (fun _ _ => 3) 0 0 none none driversDbW =
      DriversService.findNearby (fun _ _ => 3) 0 0 5000 none driversDbW :=
  (findNearby_nonnull_within_sorted_default (fun _ _ => 3) 0 0 5000 none driversDbW).2.2

/-! Section: Claim C7 -/

/-- Concrete telemetry table for the C7 counterexample: one reading at
exactly the upper bound of the queried window. -/
def teleDbC7 : TelemetryDb := ⟨[⟨3600000, "v1", some 10, none, none, none⟩]⟩

/-- C7 counterexample: `aggregate` filters with SQL
`time BETWEEN from AND to`, which is inclusive at both ends.  A reading
at exactly `to = 3600000` is counted (the bucket reports 1 reading),
although the claimed half-open window `[from, to)` excludes it
(`¬ to < to`). -/
theorem aggregate_includes_reading_at_upper_bound :
    ((TelemetryService.aggregate "v1" 3600000 (some 0) (some 3600000) 7200000 teleDbC7).map
      (·.readings) = [1]) ∧
    ¬ ((3600000 : ℕ) < 3600000) := by
  constructor
  · simp [TelemetryService.aggregate, telemetryWindow, teleDbC7, telemetryBucketRow,
      timeBucket]
  · omega

/-- C7 amended: `aggregate` groups the source's readings over the closed
window `[from, to]` (SQL `BETWEEN`, inclusive at both endpoints;
defaulting to the trailing 24 hours) into fixed-width `time_bucket`
groups, returning per-bucket averages of each numeric field plus a count
of readings, ordered descending by bucket start. -/
theorem aggregate_closed_window_desc_buckets (v : String) (bucket : ℕ)
    (fromQ toQ : Option ℕ) (now : ℕ) (db : TelemetryDb) (fromT toT : ℕ)
    (hfrom : fromT = fromQ.getD (now - 86400000)) (hto : toT = toQ.getD now) :
    (∀ row ∈ TelemetryService.aggregate v bucket fromQ toQ now db,
      row.vehicle_id = v ∧
      (∃ r ∈ telemetryWindow v fromT toT db, timeBucket bucket r.time = row.bucket) ∧
      row.readings = ((telemetryWindow v fromT toT db).filter
        (fun r => timeBucket bucket r.time == row.bucket)).length ∧
      row.avg_speed = (sqlAvg (((telemetryWindow v fromT toT db).filter
        (fun r => timeBucket bucket r.time == row.bucket)).filterMap
          (·.speed))).map pgRound2 ∧
      row.avg_battery = (sqlAvg (((telemetryWindow v fromT toT db).filter
        (fun r => timeBucket bucket r.time == row.bucket)).filterMap
          (·.battery_level))).map pgRound2 ∧
      row.avg_temperature = (sqlAvg (((telemetryWindow v fromT toT db).filter
        (fun r => timeBucket bucket r.time == row.bucket)).filterMap
          (·.temperature))).map pgRound2) ∧
    (TelemetryService.aggregate v bucket fromQ toQ now db).Sorted
      (fun a b => b.bucket ≤ a.bucket) ∧
    TelemetryService.aggregate v bucket none none now db =
      TelemetryService.aggregate v bucket (some (now - 86400000)) (some now) now db := by
  subst hfrom
  subst hto
  refine ⟨?_, ?_, rfl⟩
  · intro row hrow
    have hrow' : row ∈ ((((telemetryWindow v (fromQ.getD (now - 86400000))
        (toQ.getD now) db).map (fun r => timeBucket bucket r.time)).dedup).mergeSort
        (fun a b => decide (b ≤ a))).map
        (telemetryBucketRow v bucket (telemetryWindow v (fromQ.getD (now - 86400000))
          (toQ.getD now) db)) := hrow
    obtain ⟨k, hk, hrk⟩ := List.mem_map.mp hrow'
    have hk2 := List.mem_dedup.mp (((List.mergeSort_perm _ _).mem_iff).mp hk)
    obtain ⟨r, hr, hrt⟩ := List.mem_map.mp hk2
    subst hrk
    exact ⟨rfl, ⟨r, hr, hrt⟩, rfl, rfl, rfl, rfl⟩
  · have hpw := mergeSort_pairwise (fun a b : ℕ => decide (b ≤ a))
      (fun a b c h1 h2 => by
        simp only [decide_eq_true_eq] at h1 h2 ⊢
        omega)
      (fun a b => by
        simp only [Bool.or_eq_true, decide_eq_true_eq]
        omega)
      (((telemetryWindow v (fromQ.getD (now - 86400000)) (toQ.getD now) db).map
        (fun r => timeBucket bucket r.time)).dedup)
    show (((((telemetryWindow v (fromQ.getD (now - 86400000)) (toQ.getD now) db).map
        (fun r => timeBucket bucket r.time)).dedup).mergeSort
        (fun a b => decide (b ≤ a))).map
        (telemetryBucketRow v bucket (telemetryWindow v (fromQ.getD (now - 86400000))
          (toQ.getD now) db))).Sorted (fun a b => b.bucket ≤ a.bucket)
    exact List.pairwise_map.mpr (hpw.imp (fun h => by simpa using h))

/-- Witness for C7's amended theorem: the 24-hour default-window equation
at a concrete table. -/
theorem aggregate_closed_window_desc_buckets_witness :
    TelemetryService.aggregate "v1" 3600000 none none 7200000 teleDbC7 =
      TelemetryService.aggregate "v1" 3600000 (some (7200000 - 86400000))
        (some 7200000) 7200000 teleDbC7 :=
  (aggregate_closed_window_desc_buckets "v1" 3600000 none none 7200000 teleDbC7
    ((none : Option ℕ).getD (7200000 - 86400000)) ((none : Option ℕ).getD 7200000)
    rfl rfl).2.2
